import Mathlib

/-!
Shallow embedding of the event ingestion core of
src/firehose/firehose_collector.py: the EventBuffer (bounded FIFO staging
queue with counters), the EventDatabase batch insert, the BatchWorker
polling/flush loop, and the lifespan shutdown drain.

Events are opaque payloads, modelled by a type parameter.  Wall-clock
times are modelled as rationals.  The database transaction outcome is
modelled by an explicit DbOutcome value: DbOutcome.ok means the SQLite
transaction commits, DbOutcome.err m means it raises an exception with
message m.
-/

namespace Firehose

/-- Configuration constant BATCH_SIZE = 100 from firehose_collector.py. -/
def BATCH_SIZE : Nat := 100

/-- Configuration constant BATCH_TIMEOUT = 1.0 seconds from firehose_collector.py. -/
def BATCH_TIMEOUT : ℚ := 1

/-- Configuration constant MAX_QUEUE_SIZE = 100000 from firehose_collector.py. -/
def MAX_QUEUE_SIZE : Nat := 100000

/-- Configuration constant WORKER_SLEEP = 0.1 seconds, in milliseconds. -/
def WORKER_SLEEP_MS : Nat := 100

/-- State of an EventBuffer instance: the deque contents (head of the list is
the left end of the deque, the oldest event) and the three counters set up in
EventBuffer.__init__. -/
structure EventBuffer (α : Type) where
  queue : List α
  total_received : Nat
  total_processed : Nat
  total_dropped : Nat
deriving DecidableEq

/-- A fresh EventBuffer: empty deque, all counters zero. -/
def EventBuffer.init {α : Type} : EventBuffer α :=
  { queue := [], total_received := 0, total_processed := 0, total_dropped := 0 }

/-- Semantics of appending to a Python collections.deque constructed with
maxlen: when the deque already holds maxlen items, appending on the right
silently discards the item at the left (oldest) end. -/
def dequeAppend {α : Type} (maxlen : Nat) (q : List α) (e : α) : List α :=
  if q.length < maxlen then q ++ [e] else (q ++ [e]).drop (q.length + 1 - maxlen)

/-- EventBuffer.add_event.  The buffer was constructed with deque maxlen =
cap, but the fullness test in the source compares len(self.queue) against the
module constant MAX_QUEUE_SIZE, not against cap.  Returns the boolean result
together with the updated buffer. -/
def add_event {α : Type} (cap : Nat) (e : α) (s : EventBuffer α) : Bool × EventBuffer α :=
  if s.queue.length ≥ MAX_QUEUE_SIZE then
    (false, { s with total_dropped := s.total_dropped + 1 })
  else
    (true, { s with queue := dequeAppend cap s.queue e,
                    total_received := s.total_received + 1 })

/-- The loop inside EventBuffer.get_batch: pop the left element k times
(guarded by the queue being non-empty), collecting the popped elements in
order.  Returns the collected batch and the remaining queue. -/
def popLoop {α : Type} : Nat → List α → List α × List α
  | 0, q => ([], q)
  | _ + 1, [] => ([], [])
  | k + 1, x :: xs =>
      let p := popLoop k xs
      (x :: p.1, p.2)

/-- EventBuffer.get_batch: runs the pop loop min(batch_size, len(queue))
times and returns the batch together with the updated buffer. -/
def get_batch {α : Type} (batch_size : Nat) (s : EventBuffer α) : List α × EventBuffer α :=
  let p := popLoop (min batch_size s.queue.length) s.queue
  (p.1, { s with queue := p.2 })

/-- The mark-processed update performed by BatchWorker._process_batch after a
successful insert: total_processed += inserted, under the buffer lock. -/
def mark_processed {α : Type} (inserted : Nat) (s : EventBuffer α) : EventBuffer α :=
  { s with total_processed := s.total_processed + inserted }

/-- Outcome of the SQLite transaction attempted inside
EventDatabase.insert_batch: either the commit succeeds or some step of the
try block raises an exception with a message. -/
inductive DbOutcome where
  | ok : DbOutcome
  | err (msg : String) : DbOutcome
deriving DecidableEq

/-- The body of the try block of EventDatabase.insert_batch: the executemany
plus commit either succeed, in which case len(events) is returned, or raise. -/
def insertTryBody {α : Type} (events : List α) (db : DbOutcome) : Except String Nat :=
  match db with
  | DbOutcome.ok => Except.ok events.length
  | DbOutcome.err m => Except.error m

/-- EventDatabase.insert_batch as observed by its caller: an empty list
returns 0 before the try block; otherwise the try body runs and any exception
it raises is caught, logged, and converted to a 0 return.  The result is an
Except so that "raises to the caller" is representable: Except.error would
mean an uncaught exception escapes. -/
def insert_batch {α : Type} (events : List α) (db : DbOutcome) : Except String Nat :=
  if events.isEmpty then Except.ok 0
  else
    match insertTryBody events db with
    | Except.ok n => Except.ok n
    | Except.error _ => Except.ok 0

/-- The integer the worker actually receives from insert_batch (the function
never raises, so this is total). -/
def insert_batch_count {α : Type} (events : List α) (db : DbOutcome) : Nat :=
  match insert_batch events db with
  | Except.ok n => n
  | Except.error _ => 0

/-- State owned by BatchWorker: the shared buffer, the running flag and the
last_batch_time timestamp. -/
structure WorkerState (α : Type) where
  buffer : EventBuffer α
  running : Bool
  last_batch_time : ℚ
deriving DecidableEq

/-- The flush trigger computed by BatchWorker._process_batch: queue has at
least BATCH_SIZE events, or it is non-empty and at least BATCH_TIMEOUT
seconds have elapsed since the last batch. -/
def should_process (queue_size : Nat) (time_since_last_batch : ℚ) : Bool :=
  decide (queue_size ≥ BATCH_SIZE) ||
    (decide (queue_size > 0) && decide (time_since_last_batch ≥ BATCH_TIMEOUT))

/-- BatchWorker._process_batch: read the stats snapshot, evaluate the dual
size/time trigger, and if it fires extract up to BATCH_SIZE events, hand them
to insert_batch, mark them processed only when inserted > 0, and reset
last_batch_time to the current poll time whenever a non-empty batch was
extracted.  current_time is the value time.time() returns during this poll
and db is the outcome of the database transaction. -/
def process_batch {α : Type} (w : WorkerState α) (current_time : ℚ) (db : DbOutcome) :
    WorkerState α :=
  let queue_size := w.buffer.queue.length
  let time_since_last_batch := current_time - w.last_batch_time
  if should_process queue_size time_since_last_batch then
    let p := get_batch BATCH_SIZE w.buffer
    if p.1.isEmpty then { w with buffer := p.2 }
    else
      let inserted := insert_batch_count p.1 db
      let buf := if inserted > 0 then mark_processed inserted p.2 else p.2
      { buffer := buf, running := w.running, last_batch_time := current_time }
  else w

/-- What one iteration of the while-loop body in BatchWorker.start is given
by its environment: either _process_batch runs to completion (with the
current wall-clock time and the database outcome it observed), or somewhere
in the body an exception with the given message is raised. -/
inductive IterOutcome where
  | ran (current_time : ℚ) (db : DbOutcome) : IterOutcome
  | raised (msg : String) : IterOutcome
deriving DecidableEq

/-- One iteration of while-loop body of BatchWorker.start, including the
try/except: a normal iteration applies _process_batch and sleeps
WORKER_SLEEP; an iteration that raises is caught by the except clause, leaves
the state untouched, and sleeps 1 second.  Returns the new state and the
sleep duration in milliseconds. -/
def worker_iteration {α : Type} (w : WorkerState α) (out : IterOutcome) :
    WorkerState α × Nat :=
  match out with
  | IterOutcome.ran t db => (process_batch w t db, WORKER_SLEEP_MS)
  | IterOutcome.raised _ => (w, 1000)

/-- The while self.running loop of BatchWorker.start, run for a given number
of candidate iterations, with env supplying the outcome of each iteration. -/
def run_worker {α : Type} : Nat → WorkerState α → (Nat → IterOutcome) → WorkerState α
  | 0, w, _ => w
  | n + 1, w, env =>
      if w.running then run_worker n (worker_iteration w (env n)).1 env else w

/-- The shutdown half of lifespan: after the worker task has stopped, one
final get_batch(MAX_QUEUE_SIZE) drains the buffer and, when the remainder is
non-empty, one final insert_batch call is made whose return value is
discarded.  Returns the buffer after the drain and the list of write calls
performed (each entry is the batch passed to insert_batch). -/
def shutdown_drain {α : Type} (buf : EventBuffer α) (db : DbOutcome) :
    EventBuffer α × List (List α) :=
  let p := get_batch MAX_QUEUE_SIZE buf
  if p.1.isEmpty then (p.2, [])
  else
    let _ := insert_batch p.1 db
    (p.2, [p.1])

/-- Buffer states reachable from a fresh EventBuffer constructed with deque
maxlen = cap, under any interleaving of the operations the program performs
on it: add_event calls, bare get_batch extractions (a flush whose write
failed or has not yet been confirmed, or the shutdown drain), and complete
successful flush cycles (get_batch followed by total_processed += inserted
with the count insert_batch returned). -/
inductive Reach (cap : Nat) {α : Type} : EventBuffer α → Prop
  | init : Reach cap EventBuffer.init
  | ingest (e : α) {s : EventBuffer α} : Reach cap s → Reach cap (add_event cap e s).2
  | extract (n : Nat) {s : EventBuffer α} : Reach cap s → Reach cap (get_batch n s).2
  | flush_ok (n : Nat) {s : EventBuffer α} :
      Reach cap s →
      Reach cap (mark_processed (insert_batch_count (get_batch n s).1 DbOutcome.ok)
        (get_batch n s).2)

/-- Reachability for the buffer the program actually constructs (deque maxlen
= MAX_QUEUE_SIZE), augmented with a ghost counter: the number of events that
have been extracted by get_batch but never covered by a mark-processed
update (events of batches whose write failed or is still in flight). -/
inductive ReachG {α : Type} : EventBuffer α → Nat → Prop
  | init : ReachG EventBuffer.init 0
  | ingest (e : α) {s : EventBuffer α} {u : Nat} :
      ReachG s u → ReachG (add_event MAX_QUEUE_SIZE e s).2 u
  | extract (n : Nat) {s : EventBuffer α} {u : Nat} :
      ReachG s u → ReachG (get_batch n s).2 (u + (get_batch n s).1.length)
  | flush_ok (n : Nat) {s : EventBuffer α} {u : Nat} :
      ReachG s u →
      ReachG (mark_processed (insert_batch_count (get_batch n s).1 DbOutcome.ok)
        (get_batch n s).2) u

/-- Folding a list of events through add_event, as the load scenarios in the
spec do (admit the events one after the other, left to right). -/
def ingestAll {α : Type} (cap : Nat) (events : List α) (s : EventBuffer α) : EventBuffer α :=
  events.foldl (fun s e => (add_event cap e s).2) s

/-- The buffer state after admitting the events 0,...,36 into the buffer the
program constructs (deque maxlen = MAX_QUEUE_SIZE), with no flush in
between. -/
def buf37 : EventBuffer Nat := ingestAll MAX_QUEUE_SIZE (List.range 37) EventBuffer.init

/-- The buffer state after admitting the events 0,...,14 into a buffer
constructed with max_size = 10. -/
def buf15cap10 : EventBuffer Nat := ingestAll 10 (List.range 15) EventBuffer.init

/-- The buffer state after one accepted admit followed by one worker-style
extraction whose write has not been confirmed. -/
def c1BadState : EventBuffer Nat :=
  (get_batch BATCH_SIZE (add_event MAX_QUEUE_SIZE 0 EventBuffer.init).2).2

/-- A two-event buffer used by the shutdown-drain witness. -/
def buf2 : EventBuffer Nat :=
  { queue := [1, 2], total_received := 2, total_processed := 0, total_dropped := 0 }

/-- A worker state with one queued event, running, last batch at time 0. -/
def c8w : WorkerState Nat :=
  { buffer := { queue := [5], total_received := 1, total_processed := 0, total_dropped := 0 },
    running := true, last_batch_time := 0 }

/- Helper lemmas about the embedded operations. -/

theorem popLoop_eq {α : Type} : ∀ (k : Nat) (q : List α), popLoop k q = (q.take k, q.drop k)
  | 0, _ => rfl
  | _ + 1, [] => rfl
  | k + 1, x :: xs => by simp [popLoop, popLoop_eq k xs]

theorem get_batch_fst {α : Type} (n : Nat) (s : EventBuffer α) :
    (get_batch n s).1 = s.queue.take n := by
  rw [get_batch, popLoop_eq]
  rcases Nat.le_total n s.queue.length with h | h
  · rw [Nat.min_eq_left h]
  · rw [Nat.min_eq_right h, List.take_length, List.take_of_length_le h]

theorem get_batch_snd {α : Type} (n : Nat) (s : EventBuffer α) :
    (get_batch n s).2 = { s with queue := s.queue.drop n } := by
  rw [get_batch, popLoop_eq]
  rcases Nat.le_total n s.queue.length with h | h
  · rw [Nat.min_eq_left h]
  · rw [Nat.min_eq_right h, List.drop_length, List.drop_eq_nil_of_le h]

theorem dequeAppend_length {α : Type} (maxlen : Nat) (q : List α) (e : α) :
    (dequeAppend maxlen q e).length = min (q.length + 1) maxlen := by
  rw [dequeAppend]
  split
  · simp; omega
  · simp; omega

theorem dequeAppend_of_lt {α : Type} {maxlen : Nat} {q : List α} (e : α)
    (h : q.length < maxlen) : dequeAppend maxlen q e = q ++ [e] := if_pos h

theorem insert_batch_count_ok {α : Type} (b : List α) :
    insert_batch_count b DbOutcome.ok = b.length := by
  cases b <;> simp [insert_batch_count, insert_batch, insertTryBody]

theorem insert_batch_count_err {α : Type} (b : List α) (m : String) :
    insert_batch_count b (DbOutcome.err m) = 0 := by
  cases b <;> simp [insert_batch_count, insert_batch, insertTryBody]

theorem should_process_iff (qs : Nat) (ts : ℚ) :
    should_process qs ts = true ↔ (BATCH_SIZE ≤ qs ∨ (0 < qs ∧ BATCH_TIMEOUT ≤ ts)) := by
  simp [should_process]

theorem should_process_pos {qs : Nat} {ts : ℚ} (h : should_process qs ts = true) : 0 < qs := by
  rcases (should_process_iff qs ts).1 h with h' | h'
  · have : 0 < BATCH_SIZE := by decide
    omega
  · exact h'.1

theorem process_batch_queue {α : Type} (w : WorkerState α) (t : ℚ) (db : DbOutcome) :
    (process_batch w t db).buffer.queue =
      if should_process w.buffer.queue.length (t - w.last_batch_time) then
        w.buffer.queue.drop BATCH_SIZE
      else w.buffer.queue := by
  simp only [process_batch]
  split_ifs <;> simp_all [get_batch_snd, mark_processed]

theorem process_batch_running {α : Type} (w : WorkerState α) (t : ℚ) (db : DbOutcome) :
    (process_batch w t db).running = w.running := by
  simp only [process_batch]
  split_ifs <;> rfl

theorem run_worker_running {α : Type} :
    ∀ (n : Nat) (w : WorkerState α) (env : Nat → IterOutcome),
      w.running = true → (run_worker n w env).running = true
  | 0, _, _, h => h
  | n + 1, w, env, h => by
      rw [run_worker, if_pos h]
      refine run_worker_running n _ env ?_
      rcases henv : env n with ⟨t, db⟩ | msg
      · rw [worker_iteration]
        rw [process_batch_running]
        exact h
      · exact h

theorem process_batch_success_processed {α : Type} (w : WorkerState α) (t : ℚ)
    (h : should_process w.buffer.queue.length (t - w.last_batch_time) = true) :
    (process_batch w t DbOutcome.ok).buffer.total_processed
      = w.buffer.total_processed + min BATCH_SIZE w.buffer.queue.length := by
  have hpos : 0 < w.buffer.queue.length := should_process_pos h
  have hbatch : (get_batch BATCH_SIZE w.buffer).1 = w.buffer.queue.take BATCH_SIZE :=
    get_batch_fst _ _
  have hne : (get_batch BATCH_SIZE w.buffer).1.isEmpty = false := by
    rw [hbatch]
    rcases hq : w.buffer.queue with _ | ⟨x, xs⟩
    · rw [hq] at hpos; simp at hpos
    · simp [BATCH_SIZE]
  have hcount : insert_batch_count (get_batch BATCH_SIZE w.buffer).1 DbOutcome.ok
      = min BATCH_SIZE w.buffer.queue.length := by
    rw [insert_batch_count_ok, hbatch, List.length_take]
  have hcpos : insert_batch_count (get_batch BATCH_SIZE w.buffer).1 DbOutcome.ok > 0 := by
    rw [hcount]; simp [BATCH_SIZE]; omega
  simp only [process_batch]
  rw [if_pos h, if_neg (by simp [hne]), if_pos hcpos]
  simp [mark_processed, get_batch_snd, hcount]

theorem get_batch_nonempty {α : Type} {n : Nat} {s : EventBuffer α}
    (hn : 0 < n) (hq : 0 < s.queue.length) : (get_batch n s).1.isEmpty = false := by
  rw [get_batch_fst]
  cases hqq : s.queue with
  | nil => rw [hqq] at hq; simp at hq
  | cons x xs =>
      cases n with
      | zero => omega
      | succ k => simp [List.take]

/-- Claim C5: for every state of an EventBuffer constructed with max_size =
cap that is reachable by any sequence of add_event and get_batch operations
(including complete flush cycles), the queue length never exceeds cap. -/
theorem c5_queue_bounded {α : Type} (cap : Nat) {s : EventBuffer α} (h : Reach cap s) :
    s.queue.length ≤ cap := by
  induction h with
  | init => simp [EventBuffer.init]
  | ingest e hr ih =>
      rename_i s
      by_cases hq : s.queue.length ≥ MAX_QUEUE_SIZE
      · simpa [add_event, hq] using ih
      · simp [add_event, hq, dequeAppend_length]
  | extract n hr ih =>
      rw [get_batch_snd]
      simp only [List.length_drop]
      omega
  | flush_ok n hr ih =>
      simp only [mark_processed, get_batch_snd, List.length_drop]
      omega

/-- Witness for c5_queue_bounded at cap = 2 after admitting three events. -/
theorem c5_queue_bounded_witness :
    ((add_event 2 (2 : Nat) (add_event 2 1 (add_event 2 0 EventBuffer.init).2).2).2).queue.length
      ≤ 2 :=
  c5_queue_bounded 2 (Reach.ingest 2 (Reach.ingest 1 (Reach.ingest 0 Reach.init)))

/-- Claim C1, counterexample: the buffer state reached from a fresh buffer by
one accepted add_event followed by one get_batch extraction (the first half
of a flush, before any mark-processed update, or a flush whose write failed)
is reachable under the interleaving in the claim, and there
total_received = 1 while total_processed + total_dropped + queue_size = 0,
refuting the claimed counter equation. -/
theorem c1_counterexample :
    Reach MAX_QUEUE_SIZE c1BadState ∧
    c1BadState.total_received
      ≠ c1BadState.total_processed + c1BadState.total_dropped + c1BadState.queue.length := by
  constructor
  · exact Reach.extract BATCH_SIZE (Reach.ingest 0 Reach.init)
  · decide

/-- Claim C1, amended: for every reachable state of the buffer the program constructs,
total_received equals total_processed + queue_size + u, where the ghost count
u is the number of events extracted by get_batch but never covered by a
mark-processed update (in flight or lost to a failed write).  Dropped events
do not appear in the equation at all: add_event counts a rejected event only
in total_dropped, never in total_received. -/
theorem c1_amended_counter_equation {α : Type} {s : EventBuffer α} {u : Nat}
    (h : ReachG s u) : s.total_received = s.total_processed + s.queue.length + u := by
  induction h with
  | init => rfl
  | ingest e hr ih =>
      rename_i s u
      by_cases hq : s.queue.length ≥ MAX_QUEUE_SIZE
      · simp only [add_event, if_pos hq]
        exact ih
      · have hlt : s.queue.length < MAX_QUEUE_SIZE := by omega
        simp only [add_event, if_neg hq, dequeAppend_of_lt e hlt]
        simp only [List.length_append, List.length_cons, List.length_nil]
        omega
  | extract n hr ih =>
      rename_i s u
      rw [get_batch_snd, get_batch_fst]
      simp only [List.length_drop, List.length_take]
      omega
  | flush_ok n hr ih =>
      rename_i s u
      rw [insert_batch_count_ok, get_batch_fst]
      simp only [mark_processed, get_batch_snd, List.length_drop, List.length_take]
      omega

/-- Witness for c1_amended_counter_equation at the concrete state of the
counterexample, with one extracted-but-unconfirmed event. -/
theorem c1_amended_counter_equation_witness :
    c1BadState.total_received = c1BadState.total_processed + c1BadState.queue.length + 1 := by
  have h := c1_amended_counter_equation
    (ReachG.extract BATCH_SIZE (ReachG.ingest 0 ReachG.init))
  simpa using h

/-- Claim C6: get_batch removes up to max_count events from the head of the
queue (the batch is exactly the first max_count events, the remaining queue
is exactly the rest, so extraction order equals admission order), returns at
most max_count events, and returns the empty sequence on an empty queue. -/
theorem c6_fifo_extract {α : Type} (n : Nat) (s : EventBuffer α) :
    (get_batch n s).1 = s.queue.take n ∧
    (get_batch n s).2 = { s with queue := s.queue.drop n } ∧
    (get_batch n s).1.length ≤ n ∧
    (s.queue = [] → (get_batch n s).1 = []) := by
  refine ⟨get_batch_fst n s, get_batch_snd n s, ?_, ?_⟩
  · rw [get_batch_fst, List.length_take]
    omega
  · intro hq
    rw [get_batch_fst, hq, List.take_nil]

/-- Witness for c6_fifo_extract: extracting from an empty queue yields the
empty batch. -/
theorem c6_fifo_extract_witness :
    (get_batch 5 (EventBuffer.init : EventBuffer Nat)).1 = [] :=
  (c6_fifo_extract 5 EventBuffer.init).2.2.2 rfl

/-- Claim C10: every add_event call leaves total_processed unchanged,
increments exactly one of total_received and total_dropped by exactly one,
and the incremented counter is total_received exactly when the call returns
true and total_dropped exactly when it returns false. -/
theorem c10_add_event_frame {α : Type} (cap : Nat) (e : α) (s : EventBuffer α) :
    (add_event cap e s).2.total_processed = s.total_processed ∧
    (add_event cap e s).2.total_received + (add_event cap e s).2.total_dropped
      = s.total_received + s.total_dropped + 1 ∧
    ((add_event cap e s).1 = true ↔
      ((add_event cap e s).2.total_received = s.total_received + 1 ∧
        (add_event cap e s).2.total_dropped = s.total_dropped)) ∧
    ((add_event cap e s).1 = false ↔
      ((add_event cap e s).2.total_dropped = s.total_dropped + 1 ∧
        (add_event cap e s).2.total_received = s.total_received)) := by
  by_cases hq : s.queue.length ≥ MAX_QUEUE_SIZE <;> simp [add_event, hq] <;> omega

/-- Witness for c10_add_event_frame: an accepted admit increments
total_received. -/
theorem c10_add_event_frame_witness :
    (add_event 10 (7 : Nat) (EventBuffer.init : EventBuffer Nat)).2.total_received
      = (EventBuffer.init : EventBuffer Nat).total_received + 1 :=
  ((c10_add_event_frame 10 (7 : Nat) (EventBuffer.init : EventBuffer Nat)).2.2.1.mp
    (by decide)).1

/-- Claim C4: a poll iteration fires the flush trigger exactly when the queue
holds at least BATCH_SIZE events, or is non-empty with at least BATCH_TIMEOUT
elapsed since the last batch; when the trigger does not fire the iteration
changes nothing; when it fires the iteration extracts a batch (the first
BATCH_SIZE queued events are removed); and a firing iteration removes at most
BATCH_SIZE events from the queue even when more are queued. -/
theorem c4_flush_trigger {α : Type} (qs : Nat) (ts : ℚ) (w : WorkerState α) (t : ℚ)
    (db : DbOutcome) :
    (should_process qs ts = true ↔ (BATCH_SIZE ≤ qs ∨ (0 < qs ∧ BATCH_TIMEOUT ≤ ts))) ∧
    (should_process w.buffer.queue.length (t - w.last_batch_time) = false →
      process_batch w t db = w) ∧
    (should_process w.buffer.queue.length (t - w.last_batch_time) = true →
      (process_batch w t db).buffer.queue = w.buffer.queue.drop BATCH_SIZE) ∧
    w.buffer.queue.length - (process_batch w t db).buffer.queue.length ≤ BATCH_SIZE := by
  refine ⟨should_process_iff qs ts, ?_, ?_, ?_⟩
  · intro h
    simp only [process_batch]
    rw [if_neg (by simp [h])]
  · intro h
    rw [process_batch_queue, if_pos h]
  · rw [process_batch_queue]
    split
    · simp only [List.length_drop]
      omega
    · omega

/-- Witness for c4_flush_trigger: with an empty queue the trigger does not
fire and the iteration is the identity. -/
theorem c4_flush_trigger_witness :
    process_batch ({ buffer := EventBuffer.init, running := true, last_batch_time := 0 } :
        WorkerState Nat) 0 DbOutcome.ok
      = { buffer := EventBuffer.init, running := true, last_batch_time := 0 } :=
  (c4_flush_trigger 0 0 _ 0 DbOutcome.ok).2.1 (by decide)

/-- Claim C7: when the flush trigger fires and the write fails (insert_batch
reports 0), total_processed is unchanged, the extracted batch is gone from
the queue and not re-inserted (the queue is exactly the old queue with its
first BATCH_SIZE events removed), and last_batch_time is still reset to the
current poll time, exactly as it is on a successful flush. -/
theorem c7_failed_flush {α : Type} (w : WorkerState α) (t : ℚ) (m : String)
    (h : should_process w.buffer.queue.length (t - w.last_batch_time) = true) :
    (process_batch w t (DbOutcome.err m)).buffer.total_processed
      = w.buffer.total_processed ∧
    (process_batch w t (DbOutcome.err m)).buffer.queue
      = w.buffer.queue.drop BATCH_SIZE ∧
    (process_batch w t (DbOutcome.err m)).last_batch_time = t ∧
    (process_batch w t DbOutcome.ok).last_batch_time = t := by
  have hpos : 0 < w.buffer.queue.length := should_process_pos h
  have hne : (get_batch BATCH_SIZE w.buffer).1.isEmpty = false :=
    get_batch_nonempty (by simp [BATCH_SIZE]) hpos
  have herr : ¬ insert_batch_count (get_batch BATCH_SIZE w.buffer).1 (DbOutcome.err m) > 0 := by
    rw [insert_batch_count_err]
    omega
  refine ⟨?_, ?_, ?_, ?_⟩
  · simp only [process_batch]
    rw [if_pos h, if_neg (by simp [hne]), if_neg herr]
    simp [get_batch_snd]
  · simp only [process_batch]
    rw [if_pos h, if_neg (by simp [hne]), if_neg herr]
    simp [get_batch_snd]
  · simp only [process_batch]
    rw [if_pos h, if_neg (by simp [hne])]
  · simp only [process_batch]
    rw [if_pos h, if_neg (by simp [hne])]

/-- Witness for c7_failed_flush at a one-event queue whose write fails. -/
theorem c7_failed_flush_witness :
    (process_batch c8w 2 (DbOutcome.err "disk full")).buffer.total_processed
      = c8w.buffer.total_processed ∧
    (process_batch c8w 2 (DbOutcome.err "disk full")).buffer.queue
      = c8w.buffer.queue.drop BATCH_SIZE ∧
    (process_batch c8w 2 (DbOutcome.err "disk full")).last_batch_time = 2 ∧
    (process_batch c8w 2 DbOutcome.ok).last_batch_time = 2 :=
  c7_failed_flush c8w 2 "disk full"
    (by norm_num [should_process, c8w, BATCH_SIZE, BATCH_TIMEOUT])

/-- Claim C8: an iteration of the worker loop that raises is caught: it
leaves the worker state untouched and backs off 1000 ms instead of the normal
sleep; the loop keeps polling (running stays true for any number of
iterations under any environment, so no exception terminates the scheduler);
and on a later cycle whose trigger fires with a succeeding write, the flush
succeeds, marking min BATCH_SIZE queue_size events processed. -/
theorem c8_failure_isolation {α : Type} (w : WorkerState α) (msg : String)
    (hr : w.running = true) :
    worker_iteration w (IterOutcome.raised msg) = (w, 1000) ∧
    (∀ (n : Nat) (env : Nat → IterOutcome), (run_worker n w env).running = true) ∧
    (∀ t : ℚ, should_process w.buffer.queue.length (t - w.last_batch_time) = true →
      (worker_iteration (worker_iteration w (IterOutcome.raised msg)).1
          (IterOutcome.ran t DbOutcome.ok)).1.buffer.total_processed
        = w.buffer.total_processed + min BATCH_SIZE w.buffer.queue.length) := by
  refine ⟨rfl, fun n env => run_worker_running n w env hr, fun t ht => ?_⟩
  simp only [worker_iteration]
  exact process_batch_success_processed w t ht

/-- Witness for c8_failure_isolation: after a raised iteration, a successful
cycle still marks the queued event processed. -/
theorem c8_failure_isolation_witness :
    (worker_iteration (worker_iteration c8w (IterOutcome.raised "boom")).1
        (IterOutcome.ran 2 DbOutcome.ok)).1.buffer.total_processed
      = c8w.buffer.total_processed + min BATCH_SIZE c8w.buffer.queue.length :=
  (c8_failure_isolation c8w "boom" rfl).2.2 2
    (by norm_num [should_process, c8w, BATCH_SIZE, BATCH_TIMEOUT])

/-- Claim C9: insert_batch never raises to its caller (its result is always
Except.ok), the result is all-or-nothing (0 or the full batch length), a
committed transaction on a non-empty list yields the batch length, the empty
list yields 0 without touching the database, and any exception inside the
try block yields 0. -/
theorem c9_insert_batch_total {α : Type} (events : List α) (db : DbOutcome) :
    (∃ n : Nat, insert_batch events db = Except.ok n) ∧
    (insert_batch events db = Except.ok 0 ∨
      insert_batch events db = Except.ok events.length) ∧
    (events = [] → insert_batch events db = Except.ok 0) ∧
    (events ≠ [] → db = DbOutcome.ok →
      insert_batch events db = Except.ok events.length) ∧
    (∀ m : String, db = DbOutcome.err m → insert_batch events db = Except.ok 0) := by
  cases events <;> cases db <;> simp [insert_batch, insertTryBody]

/-- Witness for c9_insert_batch_total: a committed write of three events
returns 3. -/
theorem c9_insert_batch_total_witness :
    insert_batch [1, 2, 3] DbOutcome.ok = Except.ok 3 :=
  (c9_insert_batch_total [1, 2, 3] DbOutcome.ok).2.2.2.1 (by simp) rfl

/-- Claim C3, counterexample: admit 37 events into the buffer the program constructs, with
no flush, then run the shutdown drain with a succeeding write.  Exactly one
write call is made and it receives all 37 events, but total_processed is
left at 0, not 37 as the claim states. -/
theorem c3_counterexample :
    (shutdown_drain buf37 DbOutcome.ok).2 = [List.range 37] ∧
    ((shutdown_drain buf37 DbOutcome.ok).2.headD []).length = 37 ∧
    (shutdown_drain buf37 DbOutcome.ok).1.total_processed = 0 ∧
    ¬ (shutdown_drain buf37 DbOutcome.ok).1.total_processed = 37 := by
  set_option maxRecDepth 100000 in decide

/-- Claim C3, amended: for any non-empty buffer within capacity, the shutdown
drain performs exactly one extraction with max_count = MAX_QUEUE_SIZE and
exactly one write over the full remainder (the write receives every queued
event), emptying the queue; but it never updates total_processed (nor the
other counters), which keep their pre-shutdown values whatever the write
outcome. -/
theorem c3_amended_shutdown_drain {α : Type} (buf : EventBuffer α) (db : DbOutcome)
    (hne : buf.queue ≠ []) (hcap : buf.queue.length ≤ MAX_QUEUE_SIZE) :
    (shutdown_drain buf db).2 = [buf.queue] ∧
    (shutdown_drain buf db).1.queue = [] ∧
    (shutdown_drain buf db).1.total_processed = buf.total_processed ∧
    (shutdown_drain buf db).1.total_received = buf.total_received ∧
    (shutdown_drain buf db).1.total_dropped = buf.total_dropped := by
  have hbatch : (get_batch MAX_QUEUE_SIZE buf).1 = buf.queue := by
    rw [get_batch_fst, List.take_of_length_le hcap]
  have hisE : (get_batch MAX_QUEUE_SIZE buf).1.isEmpty = false := by
    rw [hbatch]
    cases hq : buf.queue with
    | nil => exact absurd hq hne
    | cons x xs => rfl
  simp only [shutdown_drain]
  rw [if_neg (by simp [hisE])]
  refine ⟨by rw [hbatch], ?_, ?_, ?_, ?_⟩ <;>
    simp [get_batch_snd, List.drop_eq_nil_of_le hcap]

/-- Witness for c3_amended_shutdown_drain on a two-event buffer. -/
theorem c3_amended_shutdown_drain_witness :
    (shutdown_drain buf2 DbOutcome.ok).2 = [buf2.queue] :=
  (c3_amended_shutdown_drain buf2 DbOutcome.ok (by decide) (by decide)).1

/-- Claim C2: the code contradicts the claim (and its own docstring).  With a
buffer constructed with max_size = 10, all 15 admits return true (so
total_received = 15 and total_dropped = 0, not 10 and 5): the fullness check
compares against the module constant MAX_QUEUE_SIZE instead of the instance
capacity, so the full deque silently evicts its oldest events (5 through 14
remain, 0 through 4 are lost uncounted), and even at size 10 the next admit
still returns true. -/
theorem c2_capacity_check_bug :
    buf15cap10.total_received = 15 ∧
    buf15cap10.total_dropped = 0 ∧
    buf15cap10.queue = [5, 6, 7, 8, 9, 10, 11, 12, 13, 14] ∧
    (add_event 10 (15 : Nat) buf15cap10).1 = true := by
  set_option maxRecDepth 100000 in decide

end Firehose
